import Mathlib

/-!
# Verification of the dual-token authentication/authorization core

Shallow embedding of the authentication core of a Next.js application:
the JWT token codec (`src/lib/auth-utils.ts`), the authentication
resolution performed by the `/api/auth/me` route, the Next.js middleware,
the GraphQL context, the server-side `getCurrentUser` helper, the
`/api/auth/refresh` handler, the GraphQL resolvers' authorization checks
(`src/graphql/resolvers.ts`), the client-side `ProtectedRouteLayout`
redirect, and the client-side refresh coordinator of
`src/lib/apollo-client.ts`.

Machine integers do not occur; times are modelled as `Nat` milliseconds /
seconds as in the source.  Fallible operations return `Except`.
-/

namespace AuthCore

/-! ## Token codec (`src/lib/auth-utils.ts`) -/

/-- The JWT payload written by `generateAccessToken` / `generateRefreshToken`
and read back by `verifyToken`: `{ userId, role }`. -/
structure JwtPayload where
  userId : String
  role : String
deriving DecidableEq, Repr

/-- A signed JWT, modelled by its claims plus the key it was signed with.
`sigKey` abstracts the HMAC-SHA256 signature: verification against a secret
succeeds exactly when the token was signed with that same secret (and has
not expired).  A tampered or foreign token is one whose `sigKey` differs
from the process secret. -/
structure Token where
  payload : JwtPayload
  issuedAt : Nat
  expiresAt : Nat
  sigKey : String
deriving DecidableEq, Repr

/-- `getJwtSecretKey` reads `process.env.JWT_SECRET` and throws when it is
falsy, i.e. when the variable is unset (`none`) or the empty string.  Any
other value, of any length, is accepted. -/
def getJwtSecretKey (env : Option String) : Except String String :=
  match env with
  | none => .error "JWT_SECRET is not set in environment variables"
  | some s =>
    if s = "" then .error "JWT_SECRET is not set in environment variables"
    else .ok s

/-- Access-token lifetime: `setExpirationTime("1h")`, in seconds. -/
def accessTokenLifetime : Nat := 3600

/-- Refresh-token lifetime: `setExpirationTime("7d")`, in seconds. -/
def refreshTokenLifetime : Nat := 7 * 24 * 60 * 60

/-- `generateAccessToken(userId, role)`: signs `{userId, role}` with the
process secret, issued at `now`, expiring one hour later.  Fails when
`getJwtSecretKey` throws. -/
def generateAccessToken (env : Option String) (now : Nat)
    (userId role : String) : Except String Token :=
  (getJwtSecretKey env).map fun key =>
    { payload := ⟨userId, role⟩
      issuedAt := now
      expiresAt := now + accessTokenLifetime
      sigKey := key }

/-- `generateRefreshToken(userId, role)`: same, expiring seven days later. -/
def generateRefreshToken (env : Option String) (now : Nat)
    (userId role : String) : Except String Token :=
  (getJwtSecretKey env).map fun key =>
    { payload := ⟨userId, role⟩
      issuedAt := now
      expiresAt := now + refreshTokenLifetime
      sigKey := key }

/-- `verifyToken(token)`: `jwtVerify` succeeds exactly when the signature
matches the process secret and the token is not expired (`jose` requires
`exp > now`, no leeway); every failure, including a missing secret, is
rethrown as a generic verification error. -/
def verifyToken (env : Option String) (now : Nat) (t : Token) :
    Except String JwtPayload :=
  match getJwtSecretKey env with
  | .error e => .error ("Token verification failed :" ++ e)
  | .ok key =>
    if t.sigKey = key ∧ now < t.expiresAt then .ok t.payload
    else .error "Token verification failed"

/-- The `JWT_SECRET` rule of the environment schema (`z.string().min(32)`):
this startup-time validation, in a separate module not consulted by the
codec, rejects an unset secret or one shorter than 32 characters. -/
def envSchemaJwtSecretOk (env : Option String) : Bool :=
  match env with
  | none => false
  | some s => 32 ≤ s.length

/-! ## Principals (user records as selected by the auth code) -/

/-- The projection of a stored user record used by the auth core
(`select { id, name, email, role }`).  Credential fields (password hash,
signature image) are never read by any claim under verification and are
elided. -/
structure Principal where
  id : String
  name : String
  email : String
  role : String
deriving DecidableEq, Repr

/-- `prisma.user.findUnique({ where: { id } })` over an explicit table. -/
def findById (db : List Principal) (id : String) : Option Principal :=
  db.find? fun u => u.id = id

/-! ## Shared token-resolution block

The following nested try/catch block appears verbatim in both
`src/app/api/auth/me/route.ts` (lines 29–56) and the middleware
(lines 42–73); the me route merely ignores the `role` variable:

```
let userId = ""; let role = ""; let needsNewAccessToken = false;
if (accessToken) {
  try { ({userId, role} = await verifyToken(accessToken)); }
  catch { needsNewAccessToken = true; }
}
if ((!userId || needsNewAccessToken) && refreshToken) {
  try { ({userId, role} = await verifyToken(refreshToken));
        needsNewAccessToken = true; }
  catch { return <both-invalid failure>; }
}
```
-/

/-- Outcome of the shared resolution block: either the refresh token was
tried and failed verification (the catch that 401s / clears cookies), or
control falls through with the mutable `userId`, `role`,
`needsNewAccessToken` variables as recorded. -/
inductive Resolution where
  | refreshFailed
  | resolved (userId role : String) (needsNew : Bool)
deriving DecidableEq, Repr

/-- Faithful translation of the shared block above. -/
def resolveTokens (env : Option String) (now : Nat)
    (access refresh : Option Token) : Resolution :=
  match access with
  | some a =>
    match verifyToken env now a with
    | .ok p =>
      -- userId := p.userId, role := p.role, needsNew stays false;
      -- the second `if` still fires when the verified userId is falsy
      if p.userId = "" then
        match refresh with
        | some r =>
          match verifyToken env now r with
          | .ok q => .resolved q.userId q.role true
          | .error _ => .refreshFailed
        | none => .resolved "" p.role false
      else .resolved p.userId p.role false
    | .error _ =>
      -- needsNewAccessToken := true, fall through to the refresh attempt
      match refresh with
      | some r =>
        match verifyToken env now r with
        | .ok q => .resolved q.userId q.role true
        | .error _ => .refreshFailed
      | none => .resolved "" "" true
  | none =>
    match refresh with
    | some r =>
      match verifyToken env now r with
      | .ok q => .resolved q.userId q.role true
      | .error _ => .refreshFailed
    | none => .resolved "" "" false

/-! ## `GET /api/auth/me` (`src/app/api/auth/me/route.ts`) -/

/-- Observable outcome of the me route.  `ok` records the 200 body's user
and the access-token cookie attached to the response, if any. -/
inductive MeResult where
  | skipped
  | unauthenticated
  | notFound
  | ok (user : Principal) (minted : Option Token)
  | serverError
deriving DecidableEq, Repr

/-- The `GET` handler.  `onAuthPage` models
`referer.includes("/login") || referer.includes("/signup")`. -/
def meRoute (env : Option String) (now : Nat) (onAuthPage : Bool)
    (access refresh : Option Token) (db : List Principal) : MeResult :=
  if onAuthPage then .skipped
  else if access = none ∧ refresh = none then .unauthenticated
  else
    match resolveTokens env now access refresh with
    | .refreshFailed => .unauthenticated
    | .resolved userId _role needsNew =>
      if userId = "" then .unauthenticated
      else
        match findById db userId with
        | none => .notFound
        | some user =>
          if needsNew then
            match generateAccessToken env now user.id user.role with
            | .ok t => .ok user (some t)
            | .error _ => .serverError
          else .ok user none

/-! ## Middleware (routing gate) -/

/-- `PUBLIC_ROUTES` of the middleware. -/
def publicRoutes : List String := ["/", "/login", "/signup", "/register"]

/-- `AUTH_API_ROUTES` of the middleware. -/
def authApiRoutes : List String :=
  ["/api/auth/login", "/api/auth/signup", "/api/auth/refresh"]

/-- `ADMIN_ROUTES` of the middleware. -/
def adminRoutes : List String := ["/admin"]

/-- `p.startsWith(s)` on the underlying character lists. -/
def charsPrefix : List Char → List Char → Bool
  | [], _ => true
  | _ :: _, [] => false
  | a :: as, b :: bs => a = b && charsPrefix as bs

/-- `route === path || path.startsWith(route + "/")`. -/
def routeMatches (route path : String) : Bool :=
  route = path || charsPrefix (route ++ "/").toList path.toList

def isPublicRoute (path : String) : Bool :=
  publicRoutes.any fun r => routeMatches r path

def isAuthApiRoute (path : String) : Bool :=
  authApiRoutes.any fun r => routeMatches r path

def isAdminRoute (path : String) : Bool :=
  adminRoutes.any fun r => routeMatches r path

/-- Observable outcome of the middleware: continue (optionally attaching a
freshly minted access-token cookie), or redirect to `target` (optionally
deleting both auth cookies). -/
inductive MwResult where
  | next (minted : Option Token)
  | redirect (target : String) (cleared : Bool)
deriving DecidableEq, Repr

/-- The middleware function. -/
def middleware (env : Option String) (now : Nat) (path : String)
    (access refresh : Option Token) : MwResult :=
  if isPublicRoute path || isAuthApiRoute path then .next none
  else if access = none ∧ refresh = none then .redirect "/login" false
  else
    match resolveTokens env now access refresh with
    | .refreshFailed => .redirect "/login" true
    | .resolved userId role needsNew =>
      if userId = "" then .redirect "/login" true
      else if isAdminRoute path ∧ role ≠ "ADMIN" then
        .redirect "/dashboard" false
      else if needsNew then
        match generateAccessToken env now userId role with
        | .ok t => .next (some t)
        | .error _ => .redirect "/login" true  -- outer catch
      else .next none

/-! ## GraphQL context (`src/app/api/graphql/route.ts`) -/

/-- The context resolver: unlike the me route and the middleware it is an
if/else-if chain, the refresh token is only consulted when the access token
is absent or throws, and a verified payload is stored without any falsiness
check on `userId`. -/
def graphqlContext (env : Option String) (now : Nat)
    (access refresh : Option Token) : Option String × Option String :=
  match access with
  | some a =>
    match verifyToken env now a with
    | .ok p => (some p.userId, some p.role)
    | .error _ =>
      match refresh with
      | some r =>
        match verifyToken env now r with
        | .ok q => (some q.userId, some q.role)
        | .error _ => (none, none)
      | none => (none, none)
  | none =>
    match refresh with
    | some r =>
      match verifyToken env now r with
      | .ok q => (some q.userId, some q.role)
      | .error _ => (none, none)
    | none => (none, none)

/-! ## `getCurrentUser` (`src/lib/auth.ts`) -/

/-- The server-side helper.  The single try/catch wraps both verification
attempts, so an exception from verifying a *present* access token returns
`null` immediately — the refresh fallback is only reached when the access
token is absent (or verified to a falsy `userId`). -/
def getCurrentUser (env : Option String) (now : Nat)
    (access refresh : Option Token) (db : List Principal) :
    Option Principal :=
  if access = none ∧ refresh = none then none
  else
    match access with
    | some a =>
      match verifyToken env now a with
      | .error _ => none  -- exception reaches the catch: return null
      | .ok p =>
        if p.userId = "" then
          match refresh with
          | some r =>
            match verifyToken env now r with
            | .error _ => none
            | .ok q => if q.userId = "" then none else findById db q.userId
          | none => none
        else findById db p.userId
    | none =>
      match refresh with
      | some r =>
        match verifyToken env now r with
        | .error _ => none
        | .ok q => if q.userId = "" then none else findById db q.userId
      | none => none

/-! ## `POST /api/auth/refresh` (second handler in
`src/app/api/auth/login/route.ts`'s file group) -/

/-- Observable outcome of the refresh handler.  Note the two distinct 401
shapes: a missing cookie returns 401 *without* touching cookies, while the
inner catch (invalid token, or a falsy `userId` in a verified token)
returns 401 and deletes both cookies. -/
inductive RefreshResult where
  | ok (minted : Token)
  | unauthorizedNoClear
  | unauthorizedCleared
deriving DecidableEq, Repr

/-- The `POST /api/auth/refresh` handler. -/
def refreshRoute (env : Option String) (now : Nat)
    (refresh : Option Token) : RefreshResult :=
  match refresh with
  | none => .unauthorizedNoClear
  | some r =>
    match verifyToken env now r with
    | .error _ => .unauthorizedCleared
    | .ok p =>
      if p.userId = "" then .unauthorizedCleared  -- `throw` hits the catch
      else
        match generateAccessToken env now p.userId p.role with
        | .ok t => .ok t
        | .error _ => .unauthorizedCleared  -- also inside the inner try

/-! ## GraphQL resolvers (`src/graphql/resolvers.ts`) -/

/-- The per-request context threaded into every resolver. -/
structure GraphQLContext where
  userId : Option String
  role : Option String
deriving DecidableEq, Repr

/-- Error codes thrown by the resolvers. -/
inductive GqlErrorCode where
  | unauthenticated
  | forbidden
  | badUserInput
  | internalError
deriving DecidableEq, Repr

/-- HTTP status hint attached to each auth error
(`extensions.http.status`). -/
def httpStatus : GqlErrorCode → Option Nat
  | .unauthenticated => some 401
  | .forbidden => some 403
  | _ => none

/-- JavaScript truthiness of `context.userId` (a `string | null`):
falsy when `null` or the empty string. -/
def truthy : Option String → Bool
  | none => false
  | some s => !s.isEmpty

/-- `Query.users`: authentication check first, then admin check. -/
def usersResolver (ctx : GraphQLContext) (db : List Principal) :
    Except GqlErrorCode (List Principal) :=
  if !truthy ctx.userId then .error .unauthenticated
  else if ctx.role ≠ some "ADMIN" then .error .forbidden
  else .ok db

/-- `Query.user(id)`: authentication, then self-or-admin. -/
def userResolver (ctx : GraphQLContext) (id : String)
    (db : List Principal) : Except GqlErrorCode (Option Principal) :=
  match ctx.userId with
  | none => .error .unauthenticated
  | some uid =>
    if uid.isEmpty then .error .unauthenticated
    else if uid ≠ id ∧ ctx.role ≠ some "ADMIN" then .error .forbidden
    else .ok (findById db id)

/-- `Query.me`. -/
def meResolver (ctx : GraphQLContext) (db : List Principal) :
    Except GqlErrorCode (Option Principal) :=
  match ctx.userId with
  | none => .error .unauthenticated
  | some uid =>
    if uid.isEmpty then .error .unauthenticated
    else .ok (findById db uid)

/-- `UpdateUserInput` (all fields optional). -/
structure UpdateUserInput where
  name : Option String
  email : Option String
  password : Option String
  role : Option String
deriving DecidableEq, Repr

/-- The data object handed to `prisma.user.update`: present fields
overwrite, absent fields are left unchanged (the password field, being
hashed and never read back by the claims under verification, is elided
along with `Principal`'s credential columns). -/
def applyUpdate (u : Principal) (input : UpdateUserInput) : Principal :=
  { u with
    name := input.name.getD u.name
    email := input.email.getD u.email
    role := input.role.getD u.role }

/-- `Mutation.updateUser`: authentication, then self-or-admin ownership,
then the role-change guard `if (input.role && context.role !== "ADMIN")`.
`prisma.user.update` on a missing record throws, surfaced as an internal
error. -/
def updateUserResolver (ctx : GraphQLContext) (id : String)
    (input : UpdateUserInput) (db : List Principal) :
    Except GqlErrorCode Principal :=
  match ctx.userId with
  | none => .error .unauthenticated
  | some uid =>
    if uid.isEmpty then .error .unauthenticated
    else if uid ≠ id ∧ ctx.role ≠ some "ADMIN" then .error .forbidden
    else if truthy input.role ∧ ctx.role ≠ some "ADMIN" then
      .error .forbidden
    else
      match findById db id with
      | none => .error .internalError
      | some u => .ok (applyUpdate u input)

/-- `Mutation.deleteUser`: the *only* check is
`if (context.role !== "ADMIN")` — there is no authentication check, so an
anonymous caller (role `null`) falls into the same FORBIDDEN branch as an
authenticated non-admin. -/
def deleteUserResolver (ctx : GraphQLContext) (id : String)
    (db : List Principal) : Except GqlErrorCode (List Principal) :=
  if ctx.role ≠ some "ADMIN" then .error .forbidden
  else .ok (db.filter fun u => u.id ≠ id)

/-! ## `ProtectedRouteLayout` (client-side gate) -/

/-- Hexadecimal digit for percent-encoding (uppercase, as produced by
`encodeURIComponent`). -/
def hexDigit (n : Nat) : Char :=
  if n < 10 then Char.ofNat (48 + n) else Char.ofNat (55 + n)

/-- `%XX` encoding of one byte. -/
def percentEncodeByte (b : Nat) : String :=
  String.mk ['%', hexDigit (b / 16), hexDigit (b % 16)]

/-- Characters `encodeURIComponent` leaves unescaped:
`A–Z a–z 0–9 - _ . ! ~ * ' ( )`. -/
def isUnescapedChar (c : Char) : Bool :=
  c.isAlphanum || c = '-' || c = '_' || c = '.' || c = '!' || c = '~' ||
    c = '*' || c = Char.ofNat 39 || c = '(' || c = ')'

/-- UTF-8 bytes of a code point. -/
def utf8Bytes (c : Char) : List Nat :=
  let n := c.toNat
  if n < 128 then [n]
  else if n < 2048 then [192 + n / 64, 128 + n % 64]
  else if n < 65536 then
    [224 + n / 4096, 128 + (n / 64) % 64, 128 + n % 64]
  else
    [240 + n / 262144, 128 + (n / 4096) % 64, 128 + (n / 64) % 64,
      128 + n % 64]

/-- JavaScript's `encodeURIComponent`. -/
def encodeURIComponent (s : String) : String :=
  String.join (s.toList.map fun c =>
    if isUnescapedChar c then String.mk [c]
    else String.join ((utf8Bytes c).map percentEncodeByte))

/-- The redirect decision of `ProtectedRouteLayout`'s effect: `none` means
no redirect (still loading, or access granted).  When unauthenticated it
pushes `fallbackUrl + "?returnTo=" + encodeURIComponent(currentPath)`,
preserving the requested path; when authenticated but lacking a required
admin role it pushes `/dashboard`. -/
def protectedRouteRedirect (loading isAuthenticated isAdmin
    requireAdmin : Bool) (fallbackUrl currentPath : String) :
    Option String :=
  if loading then none
  else if !isAuthenticated then
    some (fallbackUrl ++ "?returnTo=" ++ encodeURIComponent currentPath)
  else if requireAdmin && !isAdmin then some "/dashboard"
  else none

/-! ## Client-side refresh coordinator (`src/lib/apollo-client.ts`)

JavaScript is single-threaded per tab: each call to `refreshAccessToken`
runs synchronously up to its `await fetch`, so a burst of N "concurrent"
calls is a sequence of N synchronous prefixes followed by the fetch
settling.  The module-level mutable state is made explicit, plus a ghost
counter of outbound fetches. -/

def authCheckThreshold : Nat := 2000

def maxAuthChecks : Nat := 3

/-- Module-level state of `apollo-client.ts`: `lastAuthCheck`,
`authCheckCount`, `isRefreshing`, the length of `pendingRequests`, and a
ghost count of `fetch("/api/auth/refresh")` calls. -/
structure CoordState where
  lastAuthCheck : Nat
  authCheckCount : Nat
  isRefreshing : Bool
  pendingWaiters : Nat
  fetchCalls : Nat
deriving DecidableEq, Repr

/-- State at module load. -/
def initCoordState : CoordState := ⟨0, 0, false, 0, 0⟩

/-- How one `refreshAccessToken()` invocation will learn its result. -/
inductive CallOutcome where
  | aborted  -- circuit breaker: returned `false` before any network work
  | leader   -- performed the outbound fetch; resolves with its outcome
  | queued   -- pushed onto `pendingRequests`; resolved by `processQueue`
deriving DecidableEq, Repr

/-- One call to `refreshAccessToken()` run to its suspension point.  The
circuit breaker increments `authCheckCount` and returns `false` once the
count exceeds `MAX_AUTH_CHECKS` within the window (without updating
`lastAuthCheck`, since the early `return` precedes that assignment); an
in-flight refresh enqueues the caller; otherwise this caller becomes the
leader and issues the fetch. -/
def callRefresh (s : CoordState) (now : Nat) : CoordState × CallOutcome :=
  if now - s.lastAuthCheck < authCheckThreshold then
    let c := s.authCheckCount + 1
    if maxAuthChecks < c then ({ s with authCheckCount := c }, .aborted)
    else
      let s := { s with authCheckCount := c, lastAuthCheck := now }
      if s.isRefreshing then
        ({ s with pendingWaiters := s.pendingWaiters + 1 }, .queued)
      else
        ({ s with isRefreshing := true, fetchCalls := s.fetchCalls + 1 },
          .leader)
  else
    let s := { s with authCheckCount := 0, lastAuthCheck := now }
    if s.isRefreshing then
      ({ s with pendingWaiters := s.pendingWaiters + 1 }, .queued)
    else
      ({ s with isRefreshing := true, fetchCalls := s.fetchCalls + 1 },
        .leader)

/-- The leader's fetch settles: `isRefreshing = false;
processQueue(success)` resolves every queued waiter with the same
outcome and empties the queue. -/
def settleRefresh (s : CoordState) : CoordState :=
  { s with isRefreshing := false, pendingWaiters := 0 }

/-- The boolean each caller's promise resolves with once the in-flight
fetch settles with `fetchOutcome`. -/
def observe (o : CallOutcome) (fetchOutcome : Bool) : Bool :=
  match o with
  | .aborted => false
  | .leader => fetchOutcome
  | .queued => fetchOutcome

/-- `errorLink` replays the failed operation exactly once when the caller's
refresh promise resolves `true`, and forwards the original error (plus a
login redirect) when it resolves `false`. -/
def replays (o : CallOutcome) (fetchOutcome : Bool) : Nat :=
  if observe o fetchOutcome then 1 else 0

/-- Run a burst of `n` concurrent `refreshAccessToken()` calls, all
arriving at time `now` before the leader's fetch settles. -/
def runCalls : Nat → CoordState → Nat → CoordState × List CallOutcome
  | 0, s, _ => (s, [])
  | n + 1, s, now =>
    let (s1, o) := callRefresh s now
    let (s2, os) := runCalls n s1 now
    (s2, o :: os)

/-! ## Per-site verdict observables (for comparing the call sites)

The middleware entangles its verdict with routing, so the comparison
fixes a representative protected, non-admin path (`/dashboard`). -/

/-- The subject of the GraphQL context's verdict (`context.userId`). -/
def gqlSubject (env : Option String) (now : Nat) (a r : Option Token) :
    Option String :=
  (graphqlContext env now a r).1

/-- The subject the me route answers 200 with (`none` on any denial). -/
def meSubject (env : Option String) (now : Nat) (a r : Option Token)
    (db : List Principal) : Option String :=
  match meRoute env now false a r db with
  | .ok u _ => some u.id
  | _ => none

/-- Whether the middleware lets a request to `/dashboard` through. -/
def mwPasses (env : Option String) (now : Nat) (a r : Option Token) :
    Bool :=
  match middleware env now "/dashboard" a r with
  | .next _ => true
  | _ => false

/-- Every token among the cookies that verifies carries a non-empty
`userId` claim (true of every token this application signs, since
database ids are non-empty). -/
def verifiedNonempty (env : Option String) (now : Nat) (o : Option Token) :
    Bool :=
  match o with
  | none => true
  | some t =>
    match verifyToken env now t with
    | .ok p => !p.userId.isEmpty
    | .error _ => true

/-- Every token among the cookies that verifies names a subject present in
the database. -/
def verifiedInDb (env : Option String) (now : Nat) (o : Option Token)
    (db : List Principal) : Bool :=
  match o with
  | none => true
  | some t =>
    match verifyToken env now t with
    | .ok p => (findById db p.userId).isSome
    | .error _ => true

end AuthCore

namespace AuthCore

/-! ## Helper lemmas about the codec -/

/-- Inversion of a successful verification: the process secret resolves to
the token's signing key, the token is unexpired, and the returned payload
is the token's. -/
theorem verify_ok_inversion (env : Option String) (now : Nat) (t : Token)
    (p : JwtPayload) (h : verifyToken env now t = .ok p) :
    getJwtSecretKey env = .ok t.sigKey ∧ now < t.expiresAt ∧
      p = t.payload := by
  cases hk : getJwtSecretKey env with
  | error e => simp [verifyToken, hk] at h
  | ok key =>
    simp only [verifyToken, hk] at h
    split at h
    · next hc =>
      simp only [Except.ok.injEq] at h
      exact ⟨by rw [hc.1], hc.2, h.symm⟩
    · exact absurd h (by simp)

/-- When the secret resolves, `generateAccessToken` deterministically
produces the signed one-hour token. -/
theorem generateAccessToken_of_secret (env : Option String) (key : String)
    (hk : getJwtSecretKey env = .ok key) (now : Nat) (userId role : String) :
    generateAccessToken env now userId role =
      .ok ⟨⟨userId, role⟩, now, now + accessTokenLifetime, key⟩ := by
  unfold generateAccessToken
  rw [hk]
  rfl

/-- A non-empty string is not `isEmpty` (JS truthiness helper). -/
theorem isEmpty_eq_false_of_ne (s : String) (h : s ≠ "") :
    s.isEmpty = false := by
  rw [Bool.eq_false_iff]
  intro he
  exact h ((String.isEmpty_iff s).mp he)

/-- A record returned by `findById` carries the looked-up id. -/
theorem findById_id (db : List Principal) (s : String) (u : Principal)
    (h : findById db s = some u) : u.id = s := by
  unfold findById at h
  have := List.find?_some h
  simpa using this

/-! ## C4: issue/verify round-trip with strict expiry -/

/-- **C4** (confirmed): verifying a token issued for `(userId, role)`
returns exactly that pair at any time strictly before its `expiresAt`, and
fails with an error at any time strictly after it. -/
theorem token_roundtrip_strict_expiry (env : Option String) (now : Nat)
    (userId role : String) (tok : Token)
    (hgen : generateAccessToken env now userId role = .ok tok) :
    (∀ t, t < tok.expiresAt → verifyToken env t tok = .ok ⟨userId, role⟩) ∧
    (∀ t, tok.expiresAt < t →
      verifyToken env t tok = .error "Token verification failed") := by
  cases hk : getJwtSecretKey env with
  | error e => simp [generateAccessToken, hk, Except.map] at hgen
  | ok key =>
    simp only [generateAccessToken, hk, Except.map, Except.ok.injEq] at hgen
    subst hgen
    constructor
    · intro t ht
      have ht' : t < now + accessTokenLifetime := ht
      simp [verifyToken, hk, ht']
    · intro t ht
      have ht' : now + accessTokenLifetime < t := ht
      have hnot : ¬ t < now + accessTokenLifetime := by omega
      simp [verifyToken, hk, hnot]

/-- Witness for C4 at a concrete secret, subject and clock. -/
theorem token_roundtrip_strict_expiry_witness :
    verifyToken (some "k") 10 ⟨⟨"u1", "USER"⟩, 0, 3600, "k"⟩ =
      .ok ⟨"u1", "USER"⟩ ∧
    verifyToken (some "k") 4000 ⟨⟨"u1", "USER"⟩, 0, 3600, "k"⟩ =
      .error "Token verification failed" := by
  have h := token_roundtrip_strict_expiry (some "k") 0 "u1" "USER"
    ⟨⟨"u1", "USER"⟩, 0, 3600, "k"⟩ rfl
  exact ⟨h.1 10 (by decide), h.2 4000 (by decide)⟩

/-! ## C5: configuration error on weak signing secret -/

/-- **C5 counterexample**: issuance happily signs with a 1-character
secret, so a secret of length 1–31 is *not* rejected the way a missing one
is. -/
theorem short_secret_accepted_by_issuance :
    generateAccessToken (some "x") 0 "u1" "USER" =
      .ok ⟨⟨"u1", "USER"⟩, 0, 3600, "x"⟩ ∧
    String.length "x" < 32 := ⟨rfl, by decide⟩

/-- **C5** (corrected): token issuance fails exactly when the signing
secret is unset or empty; any non-empty secret, however short, is accepted
by issuance.  The 32-character minimum lives only in the startup
environment-schema validation, which indeed rejects unset or short
secrets. -/
theorem issuance_secret_characterization (now : Nat)
    (userId role s : String) (hs : s ≠ "") :
    (∃ e, generateAccessToken none now userId role = .error e) ∧
    (∃ e, generateAccessToken (some "") now userId role = .error e) ∧
    generateAccessToken (some s) now userId role =
      .ok ⟨⟨userId, role⟩, now, now + accessTokenLifetime, s⟩ ∧
    (s.length < 32 → envSchemaJwtSecretOk (some s) = false) ∧
    envSchemaJwtSecretOk none = false := by
  refine ⟨⟨_, rfl⟩, ⟨_, rfl⟩, ?_, ?_, rfl⟩
  · exact generateAccessToken_of_secret (some s) s
      (by simp [getJwtSecretKey, hs]) now userId role
  · intro hlen
    simp only [envSchemaJwtSecretOk, decide_eq_false_iff_not, not_le]
    exact hlen

/-- Witness for C5's amended statement at the 1-character secret. -/
theorem issuance_secret_characterization_witness :
    (∃ e, generateAccessToken none 0 "u1" "USER" = .error e) ∧
    (∃ e, generateAccessToken (some "") 0 "u1" "USER" = .error e) ∧
    generateAccessToken (some "x") 0 "u1" "USER" =
      .ok ⟨⟨"u1", "USER"⟩, 0, 0 + accessTokenLifetime, "x"⟩ ∧
    (String.length "x" < 32 → envSchemaJwtSecretOk (some "x") = false) ∧
    envSchemaJwtSecretOk none = false :=
  issuance_secret_characterization 0 "u1" "USER" "x" (by decide)

/-! ## C3: `POST /auth/refresh` -/

/-- **C3 counterexample**: with the refresh cookie absent the handler
returns 401 but does *not* clear the two auth cookies, contrary to the
claim that every non-success case clears both. -/
theorem refresh_absent_does_not_clear_cookies :
    refreshRoute (some "k") 0 none = .unauthorizedNoClear ∧
    RefreshResult.unauthorizedNoClear ≠ RefreshResult.unauthorizedCleared :=
  ⟨rfl, by decide⟩

/-- **C3** (corrected): the handler returns 200 with a fresh access token
when the refresh cookie verifies with a non-empty subject; it returns 401
*and clears both cookies* when the cookie is present but fails
verification (or verifies to an empty subject); and it returns 401
*without touching cookies* when the cookie is absent. -/
theorem refreshRoute_characterization (env : Option String) (now : Nat)
    (r : Token) (p : JwtPayload) :
    refreshRoute env now none = .unauthorizedNoClear ∧
    ((∃ e, verifyToken env now r = .error e) →
      refreshRoute env now (some r) = .unauthorizedCleared) ∧
    (verifyToken env now r = .ok p → p.userId ≠ "" →
      refreshRoute env now (some r) =
        .ok ⟨⟨p.userId, p.role⟩, now, now + accessTokenLifetime,
          r.sigKey⟩) ∧
    (verifyToken env now r = .ok p → p.userId = "" →
      refreshRoute env now (some r) = .unauthorizedCleared) := by
  refine ⟨rfl, ?_, ?_, ?_⟩
  · rintro ⟨e, he⟩
    simp [refreshRoute, he]
  · intro hv hne
    obtain ⟨hk, -, -⟩ := verify_ok_inversion env now r p hv
    simp [refreshRoute, hv, hne,
      generateAccessToken_of_secret env r.sigKey hk now p.userId p.role]
  · intro hv hz
    simp [refreshRoute, hv, hz]

/-- Witness for C3's amended statement at a concrete secret and token. -/
theorem refreshRoute_characterization_witness :
    refreshRoute (some "k") 100 none = .unauthorizedNoClear ∧
    ((∃ e, verifyToken (some "k") 100 ⟨⟨"u1", "USER"⟩, 0, 700, "k"⟩ =
        .error e) →
      refreshRoute (some "k") 100 (some ⟨⟨"u1", "USER"⟩, 0, 700, "k"⟩) =
        .unauthorizedCleared) ∧
    (verifyToken (some "k") 100 ⟨⟨"u1", "USER"⟩, 0, 700, "k"⟩ =
        .ok ⟨"u1", "USER"⟩ →
      ("u1" : String) ≠ "" →
      refreshRoute (some "k") 100 (some ⟨⟨"u1", "USER"⟩, 0, 700, "k"⟩) =
        .ok ⟨⟨"u1", "USER"⟩, 100, 100 + accessTokenLifetime, "k"⟩) ∧
    (verifyToken (some "k") 100 ⟨⟨"u1", "USER"⟩, 0, 700, "k"⟩ =
        .ok ⟨"u1", "USER"⟩ →
      ("u1" : String) = "" →
      refreshRoute (some "k") 100 (some ⟨⟨"u1", "USER"⟩, 0, 700, "k"⟩) =
        .unauthorizedCleared) :=
  refreshRoute_characterization (some "k") 100
    ⟨⟨"u1", "USER"⟩, 0, 700, "k"⟩ ⟨"u1", "USER"⟩

/-! ## C7: unauthenticated vs forbidden -/

/-- **C7** (code bug): `Query.users` distinguishes the two denial causes —
an anonymous context gets UNAUTHENTICATED (401) and an authenticated
non-admin gets FORBIDDEN (403) — but `Mutation.deleteUser` performs no
authentication check at all, so an anonymous caller (no valid credential)
receives FORBIDDEN (403) instead of the claimed UNAUTHENTICATED (401). -/
theorem deleteUser_anonymous_gets_forbidden :
    usersResolver ⟨none, none⟩ [] = .error .unauthenticated ∧
    usersResolver ⟨some "u1", some "USER"⟩ [] = .error .forbidden ∧
    deleteUserResolver ⟨none, none⟩ "u2" [] = .error .forbidden ∧
    httpStatus .unauthenticated = some 401 ∧
    httpStatus .forbidden = some 403 ∧
    GqlErrorCode.forbidden ≠ GqlErrorCode.unauthenticated :=
  ⟨rfl, rfl, rfl, rfl, rfl, by decide⟩

/-! ## C6: role-change restriction in `updateUser` -/

/-- **C6 counterexample**: an anonymous caller whose input includes a role
change is rejected with UNAUTHENTICATED, not with the claimed
forbidden error. -/
theorem updateUser_anonymous_role_change_unauthenticated :
    updateUserResolver ⟨none, none⟩ "u1" ⟨none, none, none, some "ADMIN"⟩
        [⟨"u1", "Alice", "alice@example.com", "USER"⟩] =
      .error .unauthenticated ∧
    GqlErrorCode.unauthenticated ≠ GqlErrorCode.forbidden :=
  ⟨rfl, by decide⟩

/-- **C6** (corrected): for an *authenticated* caller, an `updateUser`
input carrying a (non-empty) role value is rejected with FORBIDDEN unless
the caller's role is ADMIN — in particular also when the caller targets
their own record; an unauthenticated caller is rejected with
UNAUTHENTICATED instead; and an authenticated caller updating their own
existing record with the role field omitted succeeds. -/
theorem updateUser_role_change_admin_only :
    (∀ (ctx : GraphQLContext) (uid id rv : String)
       (input : UpdateUserInput) (db : List Principal),
       ctx.userId = some uid → uid ≠ "" → input.role = some rv → rv ≠ "" →
       ctx.role ≠ some "ADMIN" →
       updateUserResolver ctx id input db = .error .forbidden) ∧
    (∀ (ctx : GraphQLContext) (id : String) (input : UpdateUserInput)
       (db : List Principal),
       truthy ctx.userId = false →
       updateUserResolver ctx id input db = .error .unauthenticated) ∧
    (∀ (ctx : GraphQLContext) (uid : String) (input : UpdateUserInput)
       (db : List Principal) (u : Principal),
       ctx.userId = some uid → uid ≠ "" → input.role = none →
       findById db uid = some u →
       updateUserResolver ctx uid input db = .ok (applyUpdate u input)) := by
  refine ⟨?_, ?_, ?_⟩
  · intro ctx uid id rv input db hu hne hrole hrv hadm
    have hemp : uid.isEmpty = false := isEmpty_eq_false_of_ne uid hne
    by_cases hown : uid ≠ id ∧ ctx.role ≠ some "ADMIN"
    · simp [updateUserResolver, hu, hemp, hown]
    · have htr : truthy input.role = true := by
        simp [truthy, hrole, isEmpty_eq_false_of_ne rv hrv]
      simp [updateUserResolver, hu, hemp, hown, htr, hadm]
  · intro ctx id input db hf
    match hctx : ctx.userId with
    | none => simp [updateUserResolver, hctx]
    | some s =>
      rw [hctx] at hf
      simp only [truthy, Bool.not_eq_false'] at hf
      simp [updateUserResolver, hctx, hf]
  · intro ctx uid input db u hu hne hrole hdb
    have hemp : uid.isEmpty = false := isEmpty_eq_false_of_ne uid hne
    simp [updateUserResolver, hu, hemp, hrole, hdb, truthy]

/-- Witness for C6's amended statement: a STANDARD user touching their own
role is forbidden, an anonymous caller gets UNAUTHENTICATED, and a
role-free self-update succeeds. -/
theorem updateUser_role_change_admin_only_witness :
    updateUserResolver ⟨some "u1", some "USER"⟩ "u1"
        ⟨none, none, none, some "ADMIN"⟩
        [⟨"u1", "Alice", "alice@example.com", "USER"⟩] =
      .error .forbidden ∧
    updateUserResolver ⟨none, none⟩ "u1" ⟨none, none, none, none⟩ [] =
      .error .unauthenticated ∧
    updateUserResolver ⟨some "u1", some "USER"⟩ "u1"
        ⟨some "Alicia", none, none, none⟩
        [⟨"u1", "Alice", "alice@example.com", "USER"⟩] =
      .ok (applyUpdate ⟨"u1", "Alice", "alice@example.com", "USER"⟩
        ⟨some "Alicia", none, none, none⟩) :=
  ⟨updateUser_role_change_admin_only.1 ⟨some "u1", some "USER"⟩ "u1" "u1"
      "ADMIN" ⟨none, none, none, some "ADMIN"⟩
      [⟨"u1", "Alice", "alice@example.com", "USER"⟩] rfl (by decide) rfl
      (by decide) (by decide),
    updateUser_role_change_admin_only.2.1 ⟨none, none⟩ "u1"
      ⟨none, none, none, none⟩ [] rfl,
    updateUser_role_change_admin_only.2.2 ⟨some "u1", some "USER"⟩ "u1"
      ⟨some "Alicia", none, none, none⟩
      [⟨"u1", "Alice", "alice@example.com", "USER"⟩]
      ⟨"u1", "Alice", "alice@example.com", "USER"⟩ rfl (by decide) rfl rfl⟩

/-! ## C8: path preservation on login redirect -/

/-- **C8 counterexample**: the middleware sends every anonymous request on
a protected path to the same fixed `/login` URL — two different protected
paths produce identical redirects, so the redirect cannot preserve (or
recover) the originally requested path. -/
theorem middleware_login_redirect_drops_path :
    middleware none 0 "/dashboard" none none = .redirect "/login" false ∧
    middleware none 0 "/profile" none none = .redirect "/login" false ∧
    ("/dashboard" : String) ≠ "/profile" := by
  refine ⟨?_, ?_, by decide⟩ <;> decide

/-- **C8** (corrected): the route-level gate (middleware) denies an
anonymous request on a protected path by redirecting to the fixed
`/login` URL, *without* preserving the requested path; the originally
requested path is preserved only by the client-side
`ProtectedRouteLayout`, which redirects to
`fallbackUrl?returnTo=encodeURIComponent(currentPath)`. -/
theorem redirect_path_preservation (env : Option String) (now : Nat)
    (path : String) (hpub : isPublicRoute path = false)
    (hapi : isAuthApiRoute path = false) :
    middleware env now path none none = .redirect "/login" false ∧
    (∀ (isAdmin requireAdmin : Bool) (fallbackUrl currentPath : String),
      protectedRouteRedirect false false isAdmin requireAdmin
          fallbackUrl currentPath =
        some (fallbackUrl ++ "?returnTo=" ++
          encodeURIComponent currentPath)) := by
  constructor
  · simp [middleware, hpub, hapi]
  · intro isAdmin requireAdmin fallbackUrl currentPath
    rfl

/-- Witness for C8's amended statement at `/dashboard`: the middleware
target is bare `/login`, while the layout's target embeds the
percent-encoded path. -/
theorem redirect_path_preservation_witness :
    middleware none 0 "/dashboard" none none = .redirect "/login" false ∧
    protectedRouteRedirect false false false false "/login" "/dashboard" =
      some "/login?returnTo=%2Fdashboard" := by
  have h := redirect_path_preservation none 0 "/dashboard" (by decide)
    (by decide)
  refine ⟨h.1, ?_⟩
  rw [h.2 false false "/login" "/dashboard"]
  decide

/-! ## C1: refresh fallback with reissue -/

/-- **C1 counterexample**: with a failing access token and a verifying
refresh token whose role claim is ADMIN, `GET /auth/me` resolves the
subject from the refresh token but mints the new access token (and reports
the user) with the role currently stored in the database — `USER`, not the
refresh token's claimed `ADMIN` — so the verdict is not "the refresh
token's claims (subjectId and role)". -/
theorem meRoute_reissue_uses_db_role_not_refresh_claim :
    meRoute (some "k") 100 false (some ⟨⟨"u1", "ADMIN"⟩, 0, 50, "k"⟩)
        (some ⟨⟨"u1", "ADMIN"⟩, 0, 700000, "k"⟩)
        [⟨"u1", "Alice", "alice@example.com", "USER"⟩] =
      .ok ⟨"u1", "Alice", "alice@example.com", "USER"⟩
        (some ⟨⟨"u1", "USER"⟩, 100, 3700, "k"⟩) ∧
    ("USER" : String) ≠ "ADMIN" := by
  refine ⟨?_, by decide⟩
  decide

/-- **C1** (corrected): when the access token fails verification and the
refresh token verifies (to a non-empty subject), both reissue sites set
the reissue flag and attach exactly one freshly minted access token: the
middleware (on a protected, non-admin path) mints it with the refresh
token's claims, while `GET /auth/me` resolves only the subjectId from the
refresh token and mints the token with the id and role of the stored user
record (when that record exists; a 404 mints nothing). -/
theorem fallback_reissue_characterization (env : Option String) (now : Nat)
    (a r : Token) (q : JwtPayload) (e : String) (path : String)
    (db : List Principal) (u : Principal)
    (ha : verifyToken env now a = .error e)
    (hr : verifyToken env now r = .ok q) (hq : q.userId ≠ "")
    (hpub : isPublicRoute path = false) (hapi : isAuthApiRoute path = false)
    (hadm : isAdminRoute path = false)
    (hdb : findById db q.userId = some u) :
    middleware env now path (some a) (some r) =
      .next (some ⟨⟨q.userId, q.role⟩, now, now + accessTokenLifetime,
        r.sigKey⟩) ∧
    meRoute env now false (some a) (some r) db =
      .ok u (some ⟨⟨u.id, u.role⟩, now, now + accessTokenLifetime,
        r.sigKey⟩) := by
  obtain ⟨hk, -, -⟩ := verify_ok_inversion env now r q hr
  have hres : resolveTokens env now (some a) (some r) =
      .resolved q.userId q.role true := by
    simp [resolveTokens, ha, hr]
  constructor
  · simp [middleware, hpub, hapi, hres, hq, hadm,
      generateAccessToken_of_secret env r.sigKey hk now q.userId q.role]
  · simp [meRoute, hres, hq, hdb,
      generateAccessToken_of_secret env r.sigKey hk now u.id u.role]

/-- Witness for C1's amended statement: expired access token, valid
refresh token, subject present in the database. -/
theorem fallback_reissue_characterization_witness :
    middleware (some "k") 100 "/dashboard"
        (some ⟨⟨"u1", "USER"⟩, 0, 50, "k"⟩)
        (some ⟨⟨"u1", "USER"⟩, 0, 700000, "k"⟩) =
      .next (some ⟨⟨"u1", "USER"⟩, 100, 100 + accessTokenLifetime, "k"⟩) ∧
    meRoute (some "k") 100 false
        (some ⟨⟨"u1", "USER"⟩, 0, 50, "k"⟩)
        (some ⟨⟨"u1", "USER"⟩, 0, 700000, "k"⟩)
        [⟨"u1", "Alice", "alice@example.com", "USER"⟩] =
      .ok ⟨"u1", "Alice", "alice@example.com", "USER"⟩
        (some ⟨⟨"u1", "USER"⟩, 100, 100 + accessTokenLifetime, "k"⟩) :=
  fallback_reissue_characterization (some "k") 100
    ⟨⟨"u1", "USER"⟩, 0, 50, "k"⟩ ⟨⟨"u1", "USER"⟩, 0, 700000, "k"⟩
    ⟨"u1", "USER"⟩ "Token verification failed" "/dashboard"
    [⟨"u1", "Alice", "alice@example.com", "USER"⟩]
    ⟨"u1", "Alice", "alice@example.com", "USER"⟩
    rfl rfl (by decide) (by decide) (by decide) (by decide) rfl

/-! ## C10: role sources at the three reissue sites -/

/-- **C10** (confirmed): on a refresh-token-only resolution, `GET /auth/me`
mints the reissued access token with the database role of the stored user,
while `POST /auth/refresh` and the middleware mint it with the role claim
copied from the refresh token; when the stored role differs from the
token's role claim the two paths therefore produce access tokens with
different role claims. -/
theorem reissue_role_sources (env : Option String) (now : Nat) (r : Token)
    (q : JwtPayload) (db : List Principal) (u : Principal) (path : String)
    (hr : verifyToken env now r = .ok q) (hq : q.userId ≠ "")
    (hdb : findById db q.userId = some u)
    (hpub : isPublicRoute path = false) (hapi : isAuthApiRoute path = false)
    (hadm : isAdminRoute path = false) :
    ∃ tMe tRefresh tMw : Token,
      meRoute env now false none (some r) db = .ok u (some tMe) ∧
      refreshRoute env now (some r) = .ok tRefresh ∧
      middleware env now path none (some r) = .next (some tMw) ∧
      tMe.payload.role = u.role ∧
      tRefresh.payload.role = q.role ∧
      tMw.payload.role = q.role ∧
      (u.role ≠ q.role → tMe.payload.role ≠ tRefresh.payload.role) := by
  obtain ⟨hk, -, -⟩ := verify_ok_inversion env now r q hr
  have hres : resolveTokens env now none (some r) =
      .resolved q.userId q.role true := by
    simp [resolveTokens, hr]
  refine ⟨⟨⟨u.id, u.role⟩, now, now + accessTokenLifetime, r.sigKey⟩,
    ⟨⟨q.userId, q.role⟩, now, now + accessTokenLifetime, r.sigKey⟩,
    ⟨⟨q.userId, q.role⟩, now, now + accessTokenLifetime, r.sigKey⟩,
    ?_, ?_, ?_, rfl, rfl, rfl, fun h => h⟩
  · simp [meRoute, hres, hq, hdb,
      generateAccessToken_of_secret env r.sigKey hk now u.id u.role]
  · simp [refreshRoute, hr, hq,
      generateAccessToken_of_secret env r.sigKey hk now q.userId q.role]
  · simp [middleware, hpub, hapi, hres, hq, hadm,
      generateAccessToken_of_secret env r.sigKey hk now q.userId q.role]

/-- Witness for C10: stored role `USER`, refresh-token role claim
`ADMIN`. -/
theorem reissue_role_sources_witness :
    ∃ tMe tRefresh tMw : Token,
      meRoute (some "k") 100 false none
          (some ⟨⟨"u1", "ADMIN"⟩, 0, 700000, "k"⟩)
          [⟨"u1", "Alice", "alice@example.com", "USER"⟩] =
        .ok ⟨"u1", "Alice", "alice@example.com", "USER"⟩ (some tMe) ∧
      refreshRoute (some "k") 100
          (some ⟨⟨"u1", "ADMIN"⟩, 0, 700000, "k"⟩) = .ok tRefresh ∧
      middleware (some "k") 100 "/dashboard" none
          (some ⟨⟨"u1", "ADMIN"⟩, 0, 700000, "k"⟩) = .next (some tMw) ∧
      tMe.payload.role = "USER" ∧
      tRefresh.payload.role = "ADMIN" ∧
      tMw.payload.role = "ADMIN" ∧
      (("USER" : String) ≠ "ADMIN" →
        tMe.payload.role ≠ tRefresh.payload.role) :=
  reissue_role_sources (some "k") 100 ⟨⟨"u1", "ADMIN"⟩, 0, 700000, "k"⟩
    ⟨"u1", "ADMIN"⟩ [⟨"u1", "Alice", "alice@example.com", "USER"⟩]
    ⟨"u1", "Alice", "alice@example.com", "USER"⟩ "/dashboard"
    rfl (by decide) rfl (by decide) (by decide) (by decide)

/-! ## C2: agreement of the authentication call sites -/

/-- The empty string is the only `isEmpty` string. -/
theorem ne_empty_of_isEmpty_eq_false (s : String)
    (h : s.isEmpty = false) : s ≠ "" := by
  intro he
  subst he
  exact absurd h (by decide)

theorem isPublicRoute_dashboard : isPublicRoute "/dashboard" = false := by
  decide

theorem isAuthApiRoute_dashboard : isAuthApiRoute "/dashboard" = false := by
  decide

theorem isAdminRoute_dashboard : isAdminRoute "/dashboard" = false := by
  decide

/-- **C2 counterexample**: on an invalid (expired) access token paired
with a valid refresh token, the GraphQL context, the me route and the
middleware all authenticate the caller as `u1` — but `getCurrentUser`
returns `null`, because its single try/catch turns the access-token
verification failure into an early anonymous answer instead of falling
back to the refresh token.  The four call sites thus do not compute the
same verdict. -/
theorem getCurrentUser_no_refresh_fallback :
    graphqlContext (some "k") 100 (some ⟨⟨"u1", "USER"⟩, 0, 50, "k"⟩)
        (some ⟨⟨"u1", "USER"⟩, 0, 700000, "k"⟩) =
      (some "u1", some "USER") ∧
    meRoute (some "k") 100 false (some ⟨⟨"u1", "USER"⟩, 0, 50, "k"⟩)
        (some ⟨⟨"u1", "USER"⟩, 0, 700000, "k"⟩)
        [⟨"u1", "Alice", "alice@example.com", "USER"⟩] =
      .ok ⟨"u1", "Alice", "alice@example.com", "USER"⟩
        (some ⟨⟨"u1", "USER"⟩, 100, 3700, "k"⟩) ∧
    middleware (some "k") 100 "/dashboard"
        (some ⟨⟨"u1", "USER"⟩, 0, 50, "k"⟩)
        (some ⟨⟨"u1", "USER"⟩, 0, 700000, "k"⟩) =
      .next (some ⟨⟨"u1", "USER"⟩, 100, 3700, "k"⟩) ∧
    getCurrentUser (some "k") 100 (some ⟨⟨"u1", "USER"⟩, 0, 50, "k"⟩)
        (some ⟨⟨"u1", "USER"⟩, 0, 700000, "k"⟩)
        [⟨"u1", "Alice", "alice@example.com", "USER"⟩] = none := by
  refine ⟨?_, ?_, ?_, ?_⟩ <;> decide

/-- **C2** (corrected): the routing gate, the GraphQL context and the me
endpoint do agree — same anonymous/authenticated classification and same
subjectId — for every pair of possibly-absent, possibly-invalid cookies,
provided every token that verifies carries a non-empty subject that
exists in the database; in particular each of these three falls back to
the refresh token when the access token fails verification.
`getCurrentUser` is the odd one out (see the counterexample). -/
theorem three_call_sites_agree (env : Option String) (now : Nat)
    (a r : Option Token) (db : List Principal)
    (hna : verifiedNonempty env now a = true)
    (hnr : verifiedNonempty env now r = true)
    (hda : verifiedInDb env now a db = true)
    (hdr : verifiedInDb env now r db = true) :
    meSubject env now a r db = gqlSubject env now a r ∧
    mwPasses env now a r = (gqlSubject env now a r).isSome := by
  cases a with
  | none =>
    cases r with
    | none =>
      refine ⟨?_, ?_⟩ <;>
        simp [meSubject, meRoute, resolveTokens, gqlSubject,
          graphqlContext, mwPasses, middleware, isPublicRoute_dashboard,
          isAuthApiRoute_dashboard]
    | some rt =>
      cases hvr : verifyToken env now rt with
      | ok q =>
        obtain ⟨hk, -, -⟩ := verify_ok_inversion env now rt q hvr
        simp only [verifiedNonempty, hvr, Bool.not_eq_true'] at hnr
        have hq : q.userId ≠ "" := ne_empty_of_isEmpty_eq_false _ hnr
        simp only [verifiedInDb, hvr, Option.isSome_iff_exists] at hdr
        obtain ⟨u, hdb⟩ := hdr
        have huid := findById_id db q.userId u hdb
        refine ⟨?_, ?_⟩ <;>
          simp [meSubject, meRoute, resolveTokens, hvr, hq, hdb,
            gqlSubject, graphqlContext, mwPasses, middleware,
            isPublicRoute_dashboard, isAuthApiRoute_dashboard,
            isAdminRoute_dashboard, huid,
            generateAccessToken_of_secret env rt.sigKey hk now]
      | error e =>
        refine ⟨?_, ?_⟩ <;>
          simp [meSubject, meRoute, resolveTokens, hvr, gqlSubject,
            graphqlContext, mwPasses, middleware, isPublicRoute_dashboard,
            isAuthApiRoute_dashboard]
  | some at' =>
    cases hva : verifyToken env now at' with
    | ok p =>
      simp only [verifiedNonempty, hva, Bool.not_eq_true'] at hna
      have hp : p.userId ≠ "" := ne_empty_of_isEmpty_eq_false _ hna
      simp only [verifiedInDb, hva, Option.isSome_iff_exists] at hda
      obtain ⟨u, hdb⟩ := hda
      have huid := findById_id db p.userId u hdb
      refine ⟨?_, ?_⟩ <;>
        simp [meSubject, meRoute, resolveTokens, hva, hp, hdb,
          gqlSubject, graphqlContext, mwPasses, middleware,
          isPublicRoute_dashboard, isAuthApiRoute_dashboard,
          isAdminRoute_dashboard, huid]
    | error ea =>
      cases r with
      | none =>
        refine ⟨?_, ?_⟩ <;>
          simp [meSubject, meRoute, resolveTokens, hva, gqlSubject,
            graphqlContext, mwPasses, middleware, isPublicRoute_dashboard,
            isAuthApiRoute_dashboard]
      | some rt =>
        cases hvr : verifyToken env now rt with
        | ok q =>
          obtain ⟨hk, -, -⟩ := verify_ok_inversion env now rt q hvr
          simp only [verifiedNonempty, hvr, Bool.not_eq_true'] at hnr
          have hq : q.userId ≠ "" := ne_empty_of_isEmpty_eq_false _ hnr
          simp only [verifiedInDb, hvr, Option.isSome_iff_exists] at hdr
          obtain ⟨u, hdb⟩ := hdr
          have huid := findById_id db q.userId u hdb
          refine ⟨?_, ?_⟩ <;>
            simp [meSubject, meRoute, resolveTokens, hva, hvr, hq, hdb,
              gqlSubject, graphqlContext, mwPasses, middleware,
              isPublicRoute_dashboard, isAuthApiRoute_dashboard,
              isAdminRoute_dashboard, huid,
              generateAccessToken_of_secret env rt.sigKey hk now]
        | error er =>
          refine ⟨?_, ?_⟩ <;>
            simp [meSubject, meRoute, resolveTokens, hva, hvr,
              gqlSubject, graphqlContext, mwPasses, middleware,
              isPublicRoute_dashboard, isAuthApiRoute_dashboard]

/-- Witness for C2's amended statement: refresh-only session for a stored
user. -/
theorem three_call_sites_agree_witness :
    meSubject (some "k") 100 none (some ⟨⟨"u1", "USER"⟩, 0, 700000, "k"⟩)
        [⟨"u1", "Alice", "alice@example.com", "USER"⟩] =
      gqlSubject (some "k") 100 none
        (some ⟨⟨"u1", "USER"⟩, 0, 700000, "k"⟩) ∧
    mwPasses (some "k") 100 none
        (some ⟨⟨"u1", "USER"⟩, 0, 700000, "k"⟩) =
      (gqlSubject (some "k") 100 none
        (some ⟨⟨"u1", "USER"⟩, 0, 700000, "k"⟩)).isSome :=
  three_call_sites_agree (some "k") 100 none
    (some ⟨⟨"u1", "USER"⟩, 0, 700000, "k"⟩)
    [⟨"u1", "Alice", "alice@example.com", "USER"⟩] rfl rfl rfl rfl

/-! ## C9: single-flight refresh with circuit breaker -/

/-- **C9 counterexample**: five concurrent failing data requests (no
refresh in flight, all within the 2-second window) trigger exactly one
outbound refresh call, but the fifth caller is cut off by the circuit
breaker (`authCheckCount` reaches 4 > `MAX_AUTH_CHECKS`): it resolves
`false` and is never replayed even when the shared refresh succeeds, so
not every one of the N callers observes that refresh's outcome. -/
theorem fifth_concurrent_caller_aborted :
    (runCalls 5 initCoordState 10000).1.fetchCalls = 1 ∧
    (runCalls 5 initCoordState 10000).2 =
      [.leader, .queued, .queued, .queued, .aborted] ∧
    observe .aborted true = false ∧
    replays .aborted true = 0 := by
  decide

/-- **C9** (corrected): for `1 ≤ N ≤ 4` concurrent failing data requests
starting with no refresh in flight, the coordinator makes exactly one
outbound refresh call, no caller is cut off by the circuit breaker, every
caller observes the shared refresh's outcome, and each original request
is replayed exactly once on success.  (From the fifth concurrent caller
in the window onward the circuit breaker aborts, see the
counterexample.) -/
theorem single_flight_up_to_four_callers (n : Nat) (h1 : 1 ≤ n)
    (h4 : n ≤ 4) :
    (runCalls n initCoordState 10000).1.fetchCalls = 1 ∧
    ∀ o ∈ (runCalls n initCoordState 10000).2,
      o ≠ CallOutcome.aborted ∧ (∀ b, observe o b = b) ∧
        replays o true = 1 := by
  interval_cases n <;> exact ⟨by decide, by decide⟩

/-- Witness for C9's amended statement at `N = 4`. -/
theorem single_flight_up_to_four_callers_witness :
    (runCalls 4 initCoordState 10000).1.fetchCalls = 1 ∧
    ∀ o ∈ (runCalls 4 initCoordState 10000).2,
      o ≠ CallOutcome.aborted ∧ (∀ b, observe o b = b) ∧
        replays o true = 1 :=
  single_flight_up_to_four_callers 4 (by decide) (by decide)

end AuthCore
